import Mathlib

/-
Verification of the space-descriptor codec in `minari/serialization.py`.

The module under study converts gymnasium space descriptors (Box, Discrete,
Dict, Tuple) to and from a JSON text form.  The embedding below models:

* JSON values (`Json`), with Python's int/float distinction kept in `JNum`.
  A Python float is carried as its exact rational value: every step of the
  pipeline (`float32 -> Python float -> json.dumps -> json.loads ->
  np.float64`) is value-exact, and `repr`/parse of a Python float is an
  exact round trip, so a finite float is faithfully identified with a
  rational number.
* the text stage: `PyVal.text j` stands for a Python `str` whose JSON parse
  result is `j` (`json.loads (json.dumps j) = j` holds exactly for the
  values involved, so a string is identified with its parse result), while
  `PyVal.val j` stands for an already-parsed in-memory value.
* numpy dtypes (`Dtype`), with exact-representability predicates used to
  model the value-preserving casts on the decode path.
* the encoder `serialize_space` (singledispatch on the runtime variant) and
  the decoder `deserialize_space` (`type_value_dispatch.__call__`, string-tag
  dispatch through a `defaultdict`), following the source line by line.

Python exceptions are modelled by the `Err` type; a raised exception is an
`Except.error` result.
-/

namespace MinariSer

/-- A JSON number as Python's `json` module distinguishes them: an `int` or a
`float`.  The float is carried by its exact rational value (finite floats
only; IEEE infinities are outside this model's number domain). -/
inductive JNum where
  | int (n : ℤ)
  | float (q : ℚ)
deriving DecidableEq, Repr

/-- The exact rational value of a Python number (used when numpy ingests it). -/
def JNum.toRat : JNum → ℚ
  | .int n => (n : ℚ)
  | .float q => q

/-- The numpy dtypes modelled here: the ones this codec emits for the spaces
it handles.  `np.dtype` resolves further aliases; they would extend the name
table below without changing the lookup structure. -/
inductive Dtype where
  | float32
  | float64
  | int32
  | int64
  | uint8
deriving DecidableEq, Repr

/-- Python `str(dtype)`: numpy's canonical dtype name. -/
def Dtype.name : Dtype → String
  | .float32 => "float32"
  | .float64 => "float64"
  | .int32 => "int32"
  | .int64 => "int64"
  | .uint8 => "uint8"

def Dtype.isFloat : Dtype → Bool
  | .float32 => true
  | .float64 => true
  | _ => false

/-- Lookup `np.dtype(name)` restricted to the modelled names; `none` models the
`TypeError: data type not understood` raised on an unresolvable name. -/
def npDtypeOfName : String → Option Dtype :=
  fun s =>
    if s = "float32" then some .float32
    else if s = "float64" then some .float64
    else if s = "int32" then some .int32
    else if s = "int64" then some .int64
    else if s = "uint8" then some .uint8
    else none

/-- Largest odd divisor of `n` (0 for 0), via fuel so that the kernel can
reduce it. -/
def oddPartFuel : ℕ → ℕ → ℕ
  | 0, n => n
  | fuel + 1, n => if n % 2 == 0 && n != 0 then oddPartFuel fuel (n / 2) else n

def oddPart (n : ℕ) : ℕ := oddPartFuel n n

/-- Base-2 logarithm via fuel so that the kernel can reduce it. -/
def log2Fuel : ℕ → ℕ → ℕ
  | 0, _ => 0
  | fuel + 1, n => if n ≥ 2 then log2Fuel fuel (n / 2) + 1 else 0

def natLog2 (n : ℕ) : ℕ := log2Fuel n n

/-- Exact representability of a rational in a binary floating-point format
with `mant` mantissa bits (including the hidden bit), minimum exponent
`-emin` and largest finite magnitude `maxAbs`: the finite values of the
format are exactly the numbers `M * 2 ^ E` with `|M| < 2 ^ mant`,
`E ≥ -emin`, `|M * 2 ^ E| ≤ maxAbs`. -/
def floatRepr (mant emin : ℕ) (maxAbs : ℚ) (q : ℚ) : Bool :=
  q == 0 ||
    (let k := natLog2 q.den
     q.den == 2 ^ k &&
       (if k == 0 then
          oddPart q.num.natAbs ≤ 2 ^ mant - 1 && decide (|q| ≤ maxAbs)
        else
          q.num.natAbs ≤ 2 ^ mant - 1 && k ≤ emin))

/-- Exact representability in a bounded integer format. -/
def intRepr (lo hi : ℤ) (q : ℚ) : Bool :=
  q.den == 1 && decide (lo ≤ q.num) && decide (q.num ≤ hi)

/-- The largest finite `float32` magnitude, `(2 ^ 24 - 1) * 2 ^ 104`
(computed in ℕ so that the kernel can reduce it). -/
def f32MaxAbs : ℚ := (((2 ^ 24 - 1) * 2 ^ 104 : ℕ) : ℚ)

/-- The largest finite `float64` magnitude, `(2 ^ 53 - 1) * 2 ^ 971`. -/
def f64MaxAbs : ℚ := (((2 ^ 53 - 1) * 2 ^ 971 : ℕ) : ℚ)

/-- A rational is exactly a value of the given numpy dtype.  Used to model
the value-preserving casts: numpy's casts are the identity on such values. -/
def Dtype.reprRat : Dtype → ℚ → Bool
  | .float32, q => floatRepr 24 149 f32MaxAbs q
  | .float64, q => floatRepr 53 1074 f64MaxAbs q
  | .int32, q => intRepr (-((2 ^ 31 : ℕ) : ℤ)) (((2 ^ 31 - 1 : ℕ) : ℤ)) q
  | .int64, q => intRepr (-((2 ^ 63 : ℕ) : ℤ)) (((2 ^ 63 - 1 : ℕ) : ℤ)) q
  | .uint8, q => intRepr 0 255 q

end MinariSer

namespace MinariSer

/-- A parsed JSON value (a Python value as returned by `json.loads`).
`obj` models a Python `dict`: field order is the insertion order and keys of
actual Python dicts are unique. -/
inductive Json where
  | null
  | bool (b : Bool)
  | num (n : JNum)
  | str (s : String)
  | arr (elems : List Json)
  | obj (fields : List (String × Json))

/-- A (possibly nested) numeric numpy array, by its exact element values;
`space.low`/`space.high` of a Box and the result of `np.array` on nested
number lists are modelled this way. -/
inductive Nd where
  | scalar (q : ℚ)
  | node (xs : List Nd)

/-- A gymnasium space descriptor, restricted to the four variants the codec
serializes.  `discrete` carries `n` and `start` (stored as `np.int64` by
gymnasium); `dict` carries its subspaces in storage order. -/
inductive Space where
  | box (dtype : Dtype) (shape : List ℕ) (low high : Nd)
  | discrete (n start : ℤ)
  | dict (subs : List (String × Space))
  | tup (subs : List Space)

/-- A Python value at the codec boundary: `text j` is a `str` whose JSON
parse result is `j`; `val j` is an already-parsed value. -/
inductive PyVal where
  | text (j : Json)
  | val (j : Json)

/-- The Python exceptions the codec can raise, by role.  Each constructor
names the concrete Python exception it stands for. -/
inductive Err where
  /-- Python `KeyError: k` — a plain missing-key lookup on a dict. -/
  | keyError (k : String)
  /-- Python `TypeError` with the given message. -/
  | typeError (msg : String)
  /-- Python `AssertionError` from `assert isinstance(space_dict, Dict)` at the
  decoder entry point. -/
  | assertNotDict
  /-- Python `AssertionError` from a reconstruction routine's own
  `assert space_dict["type"] == <tag>` double-check. -/
  | assertTypeMismatch (expected : String)
  /-- Python `AssertionError` raised inside a gymnasium space constructor. -/
  | ctorAssert (msg : String)
  /-- Python `ValueError` raised inside numpy / a gymnasium space constructor. -/
  | valueError (msg : String)
  /-- Python `TypeError: data type not understood` from `np.dtype(name)`. -/
  | invalidDtype (name : String)
  /-- Model boundary: the numpy cast in the Box constructor would have to
  round (the exact-value model covers only exact casts; no encoder output
  and no claim reaches this case). -/
  | inexactCast
  /-- Model boundary: `json.loads` applied to a nested string value (the
  model carries no JSON text parser; no encoder output and no claim reaches
  this case). -/
  | nestedTextUnmodeled
deriving DecidableEq, Repr

/-- Lookup `d[key]` on a Python dict modelled as an ordered field list. -/
def lookupField : List (String × Json) → String → Option Json
  | [], _ => none
  | (k, v) :: rest, key => if k = key then some v else lookupField rest key

end MinariSer

namespace MinariSer

/-- Model of `space.low.tolist()` / `space.high.tolist()` elementwise: a float dtype
yields Python floats, an integer dtype yields Python ints (array values of an
integer dtype are integral, so `q.num` is the value). -/
def Dtype.renderScalar (d : Dtype) (q : ℚ) : JNum :=
  if d.isFloat then .float q else .int q.num

/-- Model of `list(space.shape)`: the dims as plain Python ints. -/
def shapeToJson : List ℕ → List Json
  | [] => []
  | n :: rest => .num (.int (n : ℤ)) :: shapeToJson rest

mutual

/-- Model of `ndarray.tolist()`: a nested Python list of plain numbers. -/
def ndToJson (d : Dtype) : Nd → Json
  | .scalar q => .num (d.renderScalar q)
  | .node xs => .arr (ndListToJson d xs)

def ndListToJson (d : Dtype) : List Nd → List Json
  | [] => []
  | x :: rest => ndToJson d x :: ndListToJson d rest

end

/-- The payload of a serializer result (`result` before the optional
`json.dumps`).  The `.text` arm is unreachable: `serialize_space _ false`
always returns `.val` (theorem `serialize_space_false`). -/
def jsonOfPyVal : PyVal → Json
  | .val j => j
  | .text _ => .null

mutual

/-- The encoder `serialize_space(space, to_string)`: `functools.singledispatch` on the
runtime class of `space`, modelled as a match on the variant.  The generic
fallback (`NotImplementedError`) is unreachable here because the model's
`Space` type has exactly the four registered variants. -/
def serialize_space : Space → Bool → PyVal
  | .box d sh lo hi, to_string => _serialize_box d sh lo hi to_string
  | .discrete n start, to_string => _serialize_discrete n start to_string
  | .dict subs, to_string => _serialize_dict subs to_string
  | .tup subs, to_string => _serialize_tuple subs to_string

/-- Handler `@serialize_space.register(spaces.Box)`: emits `type`, `dtype` (its
canonical name), `shape` (a plain int list) and `low`/`high` via `tolist()`,
in that insertion order; renders to text iff `to_string`. -/
def _serialize_box (d : Dtype) (sh : List ℕ) (lo hi : Nd) (to_string : Bool) :
    PyVal :=
  let result : Json := .obj
    [("type", .str "Box"), ("dtype", .str d.name),
     ("shape", .arr (shapeToJson sh)),
     ("low", ndToJson d lo), ("high", ndToJson d hi)]
  if to_string then .text result else .val result

/-- Handler `@serialize_space.register(spaces.Discrete)`: emits the hardcoded dtype
name `"int64"` and `start`/`n` cast to Python ints (`int(...)` on an
`np.int64` is value-exact). -/
def _serialize_discrete (n start : ℤ) (to_string : Bool) : PyVal :=
  let result : Json := .obj
    [("type", .str "Discrete"), ("dtype", .str "int64"),
     ("start", .num (.int start)), ("n", .num (.int n))]
  if to_string then .text result else .val result

/-- Handler `@serialize_space.register(spaces.Dict)` (written `_serialize_discrete`
in the source as well: registration is by class, the clashing def names are
immaterial there): recurses into every subspace with `to_string=False` and
collects the payloads into a mapping under `"subspaces"`. -/
def _serialize_dict (subs : List (String × Space)) (to_string : Bool) :
    PyVal :=
  let result : Json := .obj
    [("type", .str "Dict"), ("subspaces", .obj (serializeFields subs))]
  if to_string then .text result else .val result

/-- Handler `@serialize_space.register(spaces.Tuple)` (also written
`_serialize_discrete` in the source): recurses with `to_string=False` and
collects the payloads into an ordered list under `"subspaces"`. -/
def _serialize_tuple (subs : List Space) (to_string : Bool) : PyVal :=
  let result : Json := .obj
    [("type", .str "Tuple"), ("subspaces", .arr (serializeList subs))]
  if to_string then .text result else .val result

/-- The Dict loop: `result["subspaces"][key] = serialize_space(space, False)`
for each key in insertion order. -/
def serializeFields : List (String × Space) → List (String × Json)
  | [] => []
  | (k, s) :: rest =>
    (k, jsonOfPyVal (serialize_space s false)) :: serializeFields rest

/-- The Tuple loop: `result["subspaces"].append(serialize_space(s, False))`. -/
def serializeList : List Space → List Json
  | [] => []
  | s :: rest => jsonOfPyVal (serialize_space s false) :: serializeList rest

end

end MinariSer

namespace MinariSer

mutual

/-- Model of `np.array(x)` on a parsed JSON value, as used for the Box bounds:
numbers and (nested) lists of numbers become a numeric array carrying the
exact values (`np.array` of Python ints/floats is value-exact; the later
cast to the target dtype is modelled in `boxCtor`).  Other contents (strings,
booleans, nulls, dicts, ragged nestings of non-numbers) produce arrays that
cannot enter a numeric Box and are folded into `none` here. -/
def jsonToNd : Json → Option Nd
  | .num n => some (.scalar n.toRat)
  | .arr xs =>
    match jsonListToNd xs with
    | some l => some (.node l)
    | none => none
  | _ => none

def jsonListToNd : List Json → Option (List Nd)
  | [] => some []
  | x :: rest =>
    match jsonToNd x, jsonListToNd rest with
    | some a, some l => some (a :: l)
    | _, _ => none

end

mutual

/-- Check of `array.shape == shape` for a nested-list array against a dims tuple. -/
def ndMatchesShape : List ℕ → Nd → Bool
  | [], .scalar _ => true
  | n :: rest, .node xs => xs.length == n && ndListMatchShape rest xs
  | _, _ => false

def ndListMatchShape (sh : List ℕ) : List Nd → Bool
  | [] => true
  | x :: rest => ndMatchesShape sh x && ndListMatchShape sh rest

end

mutual

/-- Every element value is exactly representable in the dtype, so the
constructor's cast to `dtype` is the identity on the array. -/
def ndAllRepr (d : Dtype) : Nd → Bool
  | .scalar q => d.reprRat q
  | .node xs => ndListRepr d xs

def ndListRepr (d : Dtype) : List Nd → Bool
  | [] => true
  | x :: rest => ndAllRepr d x && ndListRepr d rest

end

/-- The dims of the decoded `shape` tuple as checked by the Box constructor:
every dim must be an integer (gymnasium asserts this) and nonnegative
(numpy rejects negative dims when allocating). -/
def shapeDims : List Json → Option (List ℕ)
  | [] => some []
  | .num (.int k) :: rest =>
    if 0 ≤ k then
      match shapeDims rest with
      | some l => some (k.toNat :: l)
      | none => none
    else none
  | _ :: _ => none

/-- Modelled from gymnasium's `Box.__init__` on the path the decoder uses
(full `low`/`high` arrays plus an explicit `shape` and `dtype`): the dims
must be integers, the bound arrays must already have the given shape
(the scalar-broadcast path is not exercised by the decoder's full arrays and
is not modelled), and the cast of the bounds to `dtype` must be value-exact
in this exact-value model. -/
def boxCtor (lo hi : Nd) (shapeRaw : List Json) (d : Dtype) :
    Except Err Space :=
  match shapeDims shapeRaw with
  | none => .error (.ctorAssert "expect shape dims to be integers")
  | some sh =>
    if ndMatchesShape sh lo = false then
      .error (.valueError "low.shape does not match provided shape")
    else if ndMatchesShape sh hi = false then
      .error (.valueError "high.shape does not match provided shape")
    else if (ndAllRepr d lo && ndAllRepr d hi) = false then
      .error .inexactCast
    else
      .ok (.box d sh lo hi)

/-- Range `-2^63 <= x < 2^63`: the values `np.int64` accepts without overflow. -/
def int64Range (x : ℤ) : Bool :=
  decide (-((2 ^ 63 : ℕ) : ℤ) ≤ x) && decide (x < ((2 ^ 63 : ℕ) : ℤ))

/-- Modelled from gymnasium's `Discrete.__init__(n, start)`: asserts that
`n` and `start` are Python/numpy integers, asserts `n > 0`
("n (counts) have to be positive"), and stores both as `np.int64`
(overflowing values are rejected by the conversion). -/
def discreteCtor (nArg startArg : Json) : Except Err Space :=
  match nArg, startArg with
  | .num (.int n), .num (.int start) =>
    if n ≤ 0 then .error (.ctorAssert "n (counts) have to be positive")
    else if (int64Range n && int64Range start) = false then
      .error (.valueError "int64 overflow")
    else .ok (.discrete n start)
  | _, _ => .error (.ctorAssert "n and start must be integers")

/-- Modelled from gymnasium's `Dict.__init__` as invoked by the decoder
with a plain insertion-ordered Python dict: stores the subspaces mapping.
The model treats construction as order-preserving.  (Some gymnasium releases
normalize plain-dict key order by sorting; descriptors as constructed by
those releases are already in normal order, on which construction is
order-preserving as well.) -/
def dictCtor (subs : List (String × Space)) : Except Err Space :=
  .ok (.dict subs)

/-- Model of `spaces.Tuple(subspaces)`: stores the ordered subspaces. -/
def tupleCtor (subs : List Space) : Except Err Space :=
  .ok (.tup subs)

end MinariSer

namespace MinariSer

/-- The `sizeOf` of a list is positive (for the decoder's termination). -/
theorem list_sizeOf_pos {A : Type} [SizeOf A] (l : List A) : 0 < sizeOf l := by
  cases l <;> simp_arith

/-- A value found in a field list is structurally smaller than the list
(used for the decoder's termination). -/
theorem lookupField_sizeOf {fs : List (String × Json)} {key : String}
    {v : Json} (h : lookupField fs key = some v) : sizeOf v < sizeOf fs := by
  induction fs with
  | nil => simp [lookupField] at h
  | cons p rest ih =>
    obtain ⟨k, w⟩ := p
    simp only [lookupField] at h
    split at h
    · cases h
      simp only [List.cons.sizeOf_spec, Prod.mk.sizeOf_spec]
      omega
    · have := ih h
      simp only [List.cons.sizeOf_spec]
      omega

/-- Handler `@deserialize_space.register("Box")`: asserts the tag, rebuilds the shape
from the plain sequence (`tuple(space_dict["shape"])`), both bound arrays
via `np.array`, the dtype by `np.dtype` name lookup — in that source order —
and hands everything to the Box constructor.  The routine itself validates
nothing beyond its tag assert. -/
def _deserialize_box (fs : List (String × Json)) : Except Err Space :=
  match lookupField fs "type" with
  | none => .error (.keyError "type")
  | some (.str "Box") =>
    match lookupField fs "shape" with
    | none => .error (.keyError "shape")
    | some (.arr shapeRaw) =>
      match lookupField fs "low" with
      | none => .error (.keyError "low")
      | some lowJ =>
        match jsonToNd lowJ with
        | none => .error (.typeError "np.array: non-numeric contents")
        | some lo =>
          match lookupField fs "high" with
          | none => .error (.keyError "high")
          | some highJ =>
            match jsonToNd highJ with
            | none => .error (.typeError "np.array: non-numeric contents")
            | some hi =>
              match lookupField fs "dtype" with
              | none => .error (.keyError "dtype")
              | some (.str dname) =>
                match npDtypeOfName dname with
                | none => .error (.invalidDtype dname)
                | some d => boxCtor lo hi shapeRaw d
              | some _ =>
                .error (.typeError "cannot interpret value as a data type")
    | some _ =>
      -- `tuple(...)` of a non-list: a number is not iterable (TypeError); a
      -- string or dict would be iterated and then rejected by the Box
      -- constructor dim assert — folded into this arm as well.
      .error (.typeError "shape value is not a list of dims")
  | some _ => .error (.assertTypeMismatch "Box")

/-- Handler `@deserialize_space.register("Discrete")`: asserts the tag, then reads
`n` and `start` as-is and passes them straight to the Discrete constructor —
no bounds or sign validation of its own. -/
def _deserialize_discrete (fs : List (String × Json)) : Except Err Space :=
  match lookupField fs "type" with
  | none => .error (.keyError "type")
  | some (.str "Discrete") =>
    match lookupField fs "n" with
    | none => .error (.keyError "n")
    | some nArg =>
      match lookupField fs "start" with
      | none => .error (.keyError "start")
      | some startArg => discreteCtor nArg startArg
  | some _ => .error (.assertTypeMismatch "Discrete")

end MinariSer

namespace MinariSer

mutual

/-- Model of `type_value_dispatch.__call__(space_dict)`, i.e. `deserialize_space` as
called by users and by the recursive routines: a `str` input has already
been replaced by its JSON parse result (`json.loads`); a parsed non-`str`,
non-dict input makes `json.loads` itself raise `TypeError` (the JSON object
must be str, bytes or bytearray); then `assert isinstance(space_dict, Dict)`
rejects any parsed text whose top-level value is not a mapping, before any
dispatch on the tag occurs. -/
def deserialize_space (p : PyVal) : Except Err Space :=
  match p with
  | .text j =>
    match j with
    | .obj fs => registry_call fs
    | _ => .error .assertNotDict
  | .val j =>
    match j with
    | .obj fs => registry_call fs
    | .str _ => .error .nestedTextUnmodeled
    | _ => .error (.typeError "the JSON object must be str, bytes or bytearray")
termination_by (sizeOf p, 0)
decreasing_by
  all_goals apply Prod.Lex.left
  all_goals simp only [PyVal.text.sizeOf_spec, PyVal.val.sizeOf_spec,
    Json.obj.sizeOf_spec]
  all_goals omega

/-- Dispatch `self.registry[space_dict["type"]](space_dict)`: evaluating
`space_dict["type"]` first (KeyError if absent), then looking the tag up in
the `defaultdict`.  On a missing key the `defaultdict` calls its
`default_factory` — the undecorated one-parameter `deserialize_space`
fallback function — with **no arguments**, so the lookup raises
`TypeError: deserialize_space() missing 1 required positional argument`
instead of ever reaching the fallback's `NotImplementedError`. -/
def registry_call (fs : List (String × Json)) : Except Err Space :=
  match lookupField fs "type" with
  | none => .error (.keyError "type")
  | some (.str "Tuple") => _deserialize_tuple fs
  | some (.str "Dict") => _deserialize_dict fs
  | some (.str "Box") => _deserialize_box fs
  | some (.str "Discrete") => _deserialize_discrete fs
  | some _ =>
    .error (.typeError
      "deserialize_space missing 1 required positional argument: space_dict")
termination_by (sizeOf fs, 1)
decreasing_by
  all_goals exact Prod.Lex.right _ (by omega)

/-- Handler `@deserialize_space.register("Tuple")`: asserts the tag, then rebuilds
every entry of the `"subspaces"` list in order through `deserialize_space`
and wraps the results in a Tuple space. -/
def _deserialize_tuple (fs : List (String × Json)) : Except Err Space :=
  match lookupField fs "type" with
  | none => .error (.keyError "type")
  | some (.str "Tuple") =>
    match h : lookupField fs "subspaces" with
    | none => .error (.keyError "subspaces")
    | some (.arr xs) =>
      match deserialize_sublist xs with
      | .ok subs => tupleCtor subs
      | .error e => .error e
    | some (.str _) => .error .nestedTextUnmodeled
    | some (.obj _) => .error .nestedTextUnmodeled
    | some (.num _) => .error (.typeError "value is not iterable")
    | some (.bool _) => .error (.typeError "value is not iterable")
    | some .null => .error (.typeError "value is not iterable")
  | some _ => .error (.assertTypeMismatch "Tuple")
termination_by (sizeOf fs, 0)
decreasing_by
  apply Prod.Lex.left
  have hs := lookupField_sizeOf h
  simp only [Json.arr.sizeOf_spec] at hs
  omega

/-- Handler `@deserialize_space.register("Dict")`: asserts the tag, then rebuilds
every value of the `"subspaces"` mapping through `deserialize_space`,
preserving key order, and wraps the result in a Dict space. -/
def _deserialize_dict (fs : List (String × Json)) : Except Err Space :=
  match lookupField fs "type" with
  | none => .error (.keyError "type")
  | some (.str "Dict") =>
    match h : lookupField fs "subspaces" with
    | none => .error (.keyError "subspaces")
    | some (.obj gs) =>
      match deserialize_fields gs with
      | .ok subs => dictCtor subs
      | .error e => .error e
    | some (.arr _) => .error (.typeError "list indices must be integers")
    | some (.str _) => .error (.typeError "string indices must be integers")
    | some (.num _) => .error (.typeError "value is not iterable")
    | some (.bool _) => .error (.typeError "value is not iterable")
    | some .null => .error (.typeError "value is not iterable")
  | some _ => .error (.assertTypeMismatch "Dict")
termination_by (sizeOf fs, 0)
decreasing_by
  apply Prod.Lex.left
  have hs := lookupField_sizeOf h
  simp only [Json.obj.sizeOf_spec] at hs
  omega

/-- The Tuple generator: `tuple(deserialize_space(s) for s in subspaces)`,
left to right, first exception propagating. -/
def deserialize_sublist (xs : List Json) : Except Err (List Space) :=
  match xs with
  | [] => .ok []
  | x :: rest =>
    match deserialize_space (.val x) with
    | .error e => .error e
    | .ok s =>
      match deserialize_sublist rest with
      | .ok l => .ok (s :: l)
      | .error e => .error e
termination_by (sizeOf xs, 0)
decreasing_by
  all_goals apply Prod.Lex.left
  all_goals have hr := list_sizeOf_pos rest
  all_goals simp only [PyVal.val.sizeOf_spec, List.cons.sizeOf_spec]
  all_goals omega

/-- The Dict comprehension: iterate the keys of `subspaces` in order and
decode each value. -/
def deserialize_fields (gs : List (String × Json)) :
    Except Err (List (String × Space)) :=
  match gs with
  | [] => .ok []
  | (k, v) :: rest =>
    match deserialize_space (.val v) with
    | .error e => .error e
    | .ok s =>
      match deserialize_fields rest with
      | .ok l => .ok ((k, s) :: l)
      | .error e => .error e
termination_by (sizeOf gs, 0)
decreasing_by
  all_goals apply Prod.Lex.left
  all_goals have hr := list_sizeOf_pos rest
  all_goals simp only [PyVal.val.sizeOf_spec, List.cons.sizeOf_spec,
    Prod.mk.sizeOf_spec]
  all_goals omega

end

end MinariSer


namespace MinariSer

mutual

/-- Well-formedness of a descriptor instance, i.e. the invariants an actual
gymnasium space of the variant carries by construction: a Box's bound arrays
have its shape and hold values of its dtype exactly; a Discrete has
`n ≥ 1` and `np.int64` fields. -/
def Space.wf : Space → Bool
  | .box d sh lo hi =>
    ndMatchesShape sh lo && ndMatchesShape sh hi &&
      ndAllRepr d lo && ndAllRepr d hi
  | .discrete n start => decide (1 ≤ n) && int64Range n && int64Range start
  | .dict subs => wfFields subs
  | .tup subs => wfList subs

def wfFields : List (String × Space) → Bool
  | [] => true
  | (_, s) :: rest => Space.wf s && wfFields rest

def wfList : List Space → Bool
  | [] => true
  | s :: rest => Space.wf s && wfList rest

end

/-- The canonical representation of a descriptor: the payload that
`serialize_space(space, to_string=False)` returns. -/
def serJson (s : Space) : Json := jsonOfPyVal (serialize_space s false)

theorem serialize_space_false (s : Space) :
    serialize_space s false = .val (serJson s) := by
  cases s <;>
    simp [serialize_space, _serialize_box, _serialize_discrete,
      _serialize_dict, _serialize_tuple, serJson, jsonOfPyVal]

theorem serialize_space_true (s : Space) :
    serialize_space s true = .text (serJson s) := by
  cases s <;>
    simp [serialize_space, _serialize_box, _serialize_discrete,
      _serialize_dict, _serialize_tuple, serJson, jsonOfPyVal]

theorem serJson_obj (s : Space) : ∃ fs, serJson s = .obj fs := by
  cases s <;>
    simp [serJson, serialize_space, _serialize_box, _serialize_discrete,
      _serialize_dict, _serialize_tuple, jsonOfPyVal]

end MinariSer


namespace MinariSer

/-- The `tolist()` rendering followed by reading the number back is value-exact for values
of the array's dtype. -/
theorem renderScalar_toRat (d : Dtype) (q : ℚ) (h : d.reprRat q = true) :
    (d.renderScalar q).toRat = q := by
  cases d
  case float32 =>
    simp only [Dtype.renderScalar, Dtype.isFloat, if_true, JNum.toRat]
  case float64 =>
    simp only [Dtype.renderScalar, Dtype.isFloat, if_true, JNum.toRat]
  all_goals
    simp only [Dtype.reprRat, intRepr, Bool.and_eq_true, beq_iff_eq] at h
    simp only [Dtype.renderScalar, Dtype.isFloat, Bool.false_eq_true,
      if_false, JNum.toRat]
    exact Rat.coe_int_num_of_den_eq_one h.1.1

mutual

/-- Applying `np.array` on the output of `tolist()` recovers the array exactly. -/
theorem jsonToNd_ndToJson (d : Dtype) (nd : Nd) (h : ndAllRepr d nd = true) :
    jsonToNd (ndToJson d nd) = some nd := by
  cases nd with
  | scalar q =>
    simp only [ndAllRepr] at h
    simp only [ndToJson, jsonToNd]
    rw [renderScalar_toRat d q h]
  | node xs =>
    simp only [ndAllRepr] at h
    simp only [ndToJson, jsonToNd]
    rw [jsonListToNd_ndListToJson d xs h]

theorem jsonListToNd_ndListToJson (d : Dtype) (xs : List Nd)
    (h : ndListRepr d xs = true) :
    jsonListToNd (ndListToJson d xs) = some xs := by
  cases xs with
  | nil => simp [ndListToJson, jsonListToNd]
  | cons x rest =>
    simp only [ndListRepr, Bool.and_eq_true] at h
    simp only [ndListToJson, jsonListToNd]
    rw [jsonToNd_ndToJson d x h.1, jsonListToNd_ndListToJson d rest h.2]

end

/-- The serialized shape list parses back to the same dims. -/
theorem shapeDims_ser (sh : List ℕ) : shapeDims (shapeToJson sh) = some sh := by
  induction sh with
  | nil => rfl
  | cons n rest ih =>
    simp only [shapeToJson, shapeDims, Int.natCast_nonneg, if_true, ih,
      Int.toNat_natCast]

/-- The `np.dtype` lookup resolves the canonical name back to the dtype. -/
theorem npDtypeOfName_name (d : Dtype) : npDtypeOfName d.name = some d := by
  cases d <;> rfl

/-- The Box constructor accepts the decoded pieces of a well-formed Box and
rebuilds it exactly. -/
theorem boxCtor_ser (d : Dtype) (sh : List ℕ) (lo hi : Nd)
    (h1 : ndMatchesShape sh lo = true) (h2 : ndMatchesShape sh hi = true)
    (h3 : ndAllRepr d lo = true) (h4 : ndAllRepr d hi = true) :
    boxCtor lo hi (shapeToJson sh) d = .ok (.box d sh lo hi) := by
  simp [boxCtor, shapeDims_ser, h1, h2, h3, h4]

end MinariSer

namespace MinariSer

mutual

/-- Round trip on the canonical representation: decoding the payload that
the encoder produced for a well-formed descriptor rebuilds the descriptor
exactly. -/
theorem roundtrip_val (s : Space) (h : Space.wf s = true) :
    deserialize_space (.val (serJson s)) = .ok s := by
  cases s with
  | box d sh lo hi =>
    simp only [Space.wf, Bool.and_eq_true] at h
    obtain ⟨⟨⟨hm1, hm2⟩, hr1⟩, hr2⟩ := h
    simp only [serJson, serialize_space, _serialize_box, jsonOfPyVal,
      Bool.false_eq_true, if_false]
    simp only [deserialize_space, registry_call, lookupField, String.reduceEq,
      reduceIte, _deserialize_box, jsonToNd_ndToJson d lo hr1,
      jsonToNd_ndToJson d hi hr2, npDtypeOfName_name]
    exact boxCtor_ser d sh lo hi hm1 hm2 hr1 hr2
  | discrete n start =>
    simp only [Space.wf, Bool.and_eq_true, decide_eq_true_eq] at h
    simp only [serJson, serialize_space, _serialize_discrete, jsonOfPyVal,
      Bool.false_eq_true, if_false]
    simp only [deserialize_space, registry_call, lookupField,
      String.reduceEq, reduceIte, _deserialize_discrete, discreteCtor]
    have h1 : ¬ (n ≤ 0) := by omega
    simp [h1, h.1.2, h.2]
  | dict subs =>
    simp only [Space.wf] at h
    simp only [serJson, serialize_space, _serialize_dict, jsonOfPyVal,
      Bool.false_eq_true, if_false]
    simp only [deserialize_space, registry_call, lookupField,
      String.reduceEq, reduceIte, _deserialize_dict]
    split
    all_goals rename_i heq
    all_goals simp only [String.reduceEq, reduceIte, Option.some.injEq,
      Json.obj.injEq, reduceCtorEq] at heq
    rename_i gs
    rw [← heq, roundtrip_fields subs h]
    simp [dictCtor]
  | tup subs =>
    simp only [Space.wf] at h
    simp only [serJson, serialize_space, _serialize_tuple, jsonOfPyVal,
      Bool.false_eq_true, if_false]
    simp only [deserialize_space, registry_call, lookupField,
      String.reduceEq, reduceIte, _deserialize_tuple]
    split
    all_goals rename_i heq
    all_goals simp only [String.reduceEq, reduceIte, Option.some.injEq,
      Json.arr.injEq, reduceCtorEq] at heq
    rename_i xs
    rw [← heq, roundtrip_sublist subs h]
    simp [tupleCtor]

theorem roundtrip_fields (l : List (String × Space))
    (h : wfFields l = true) : deserialize_fields (serializeFields l) = .ok l := by
  match l with
  | [] => simp [serializeFields, deserialize_fields]
  | (k, s) :: rest =>
    simp only [wfFields, Bool.and_eq_true] at h
    simp only [serializeFields, deserialize_fields]
    rw [show jsonOfPyVal (serialize_space s false) = serJson s from rfl]
    rw [roundtrip_val s h.1, roundtrip_fields rest h.2]

theorem roundtrip_sublist (l : List Space) (h : wfList l = true) :
    deserialize_sublist (serializeList l) = .ok l := by
  match l with
  | [] => simp [serializeList, deserialize_sublist]
  | s :: rest =>
    simp only [wfList, Bool.and_eq_true] at h
    simp only [serializeList, deserialize_sublist]
    rw [show jsonOfPyVal (serialize_space s false) = serJson s from rfl]
    rw [roundtrip_val s h.1, roundtrip_sublist rest h.2]

end

/-- Round trip through the rendered text, the persisted form. -/
theorem roundtrip_text (s : Space) (h : Space.wf s = true) :
    deserialize_space (serialize_space s true) = .ok s := by
  rw [serialize_space_true]
  obtain ⟨fs, hfs⟩ := serJson_obj s
  have hv := roundtrip_val s h
  rw [hfs] at hv ⊢
  simp only [deserialize_space] at hv ⊢
  exact hv

end MinariSer

namespace MinariSer

/-- The Box constructor never raises a tag assert. -/
theorem boxCtor_noTag (lo hi : Nd) (sh : List Json) (d : Dtype) (e : String) :
    boxCtor lo hi sh d ≠ .error (.assertTypeMismatch e) := by
  rw [boxCtor.eq_def]
  split <;> try simp
  all_goals try (split <;> try simp)
  all_goals try (split <;> try simp)
  all_goals try (split <;> try simp)

/-- The Discrete constructor never raises a tag assert. -/
theorem discreteCtor_noTag (a b : Json) (e : String) :
    discreteCtor a b ≠ .error (.assertTypeMismatch e) := by
  rw [discreteCtor.eq_def]
  split <;> try simp
  all_goals try (split <;> try simp)
  all_goals try (split <;> try simp)

mutual

/-- No decoder entry point can surface a tag-assert failure: dispatch routes
each representation to the routine registered for its own tag, and the
routine re-reads the same field. -/
theorem noTag_space (p : PyVal) (e : String) :
    deserialize_space p ≠ .error (.assertTypeMismatch e) := by
  match p with
  | .text j =>
    match j with
    | .obj fs =>
      simp only [deserialize_space]
      exact noTag_registry fs e
    | .null | .bool _ | .num _ | .str _ | .arr _ =>
      simp [deserialize_space]
  | .val j =>
    match j with
    | .obj fs =>
      simp only [deserialize_space]
      exact noTag_registry fs e
    | .null | .bool _ | .num _ | .str _ | .arr _ =>
      simp [deserialize_space]
termination_by (sizeOf p, 0)
decreasing_by
  all_goals apply Prod.Lex.left
  all_goals simp only [PyVal.text.sizeOf_spec, PyVal.val.sizeOf_spec,
    Json.obj.sizeOf_spec]
  all_goals omega

theorem noTag_registry (fs : List (String × Json)) (e : String) :
    registry_call fs ≠ .error (.assertTypeMismatch e) := by
  rw [registry_call]
  split
  · simp
  · -- tag "Tuple": the routine re-checks the same lookup and passes
    rename_i hty
    simp only [_deserialize_tuple, hty]
    split
    · simp
    · rename_i xs hsub
      have hsz : sizeOf xs < sizeOf fs := by
        have hs := lookupField_sizeOf hsub
        simp only [Json.arr.sizeOf_spec] at hs
        omega
      cases hds : deserialize_sublist xs with
      | ok subs => simp [hds, tupleCtor]
      | error e2 =>
        simp only [hds]
        intro hcontra
        simp only [Except.error.injEq] at hcontra
        exact noTag_sublist xs e (hcontra ▸ hds)
    all_goals simp
  · -- tag "Dict"
    rename_i hty
    simp only [_deserialize_dict, hty]
    split
    · simp
    · rename_i gs hsub
      have hsz : sizeOf gs < sizeOf fs := by
        have hs := lookupField_sizeOf hsub
        simp only [Json.obj.sizeOf_spec] at hs
        omega
      cases hds : deserialize_fields gs with
      | ok subs => simp [hds, dictCtor]
      | error e2 =>
        simp only [hds]
        intro hcontra
        simp only [Except.error.injEq] at hcontra
        exact noTag_fields gs e (hcontra ▸ hds)
    all_goals simp
  · -- tag "Box"
    rename_i hty
    simp only [_deserialize_box, hty]
    split <;> try simp
    all_goals try (split <;> try simp)
    all_goals try (split <;> try simp)
    all_goals try (split <;> try simp)
    all_goals try (split <;> try simp)
    all_goals try (split <;> try simp)
    all_goals try (split <;> try simp)
    all_goals exact boxCtor_noTag _ _ _ _ _
  · -- tag "Discrete"
    rename_i hty
    simp only [_deserialize_discrete, hty]
    split <;> try simp
    all_goals try (split <;> try simp)
    all_goals exact discreteCtor_noTag _ _ _
  · simp
termination_by (sizeOf fs, 1)
decreasing_by
  all_goals apply Prod.Lex.left
  all_goals omega

theorem noTag_sublist (xs : List Json) (e : String)
    (h : deserialize_sublist xs = .error (.assertTypeMismatch e)) : False := by
  match xs with
  | [] => simp [deserialize_sublist] at h
  | x :: rest =>
    rw [deserialize_sublist] at h
    revert h
    cases hx : deserialize_space (.val x) with
    | error e2 =>
      intro h
      simp only [Except.error.injEq] at h
      exact noTag_space (.val x) e (h ▸ hx)
    | ok s =>
      cases hr : deserialize_sublist rest with
      | error e2 =>
        intro h
        simp only [Except.error.injEq] at h
        exact noTag_sublist rest e (h ▸ hr)
      | ok l => simp
termination_by (sizeOf xs, 0)
decreasing_by
  all_goals apply Prod.Lex.left
  all_goals have hp := list_sizeOf_pos rest
  all_goals simp only [PyVal.val.sizeOf_spec, List.cons.sizeOf_spec]
  all_goals omega

theorem noTag_fields (gs : List (String × Json)) (e : String)
    (h : deserialize_fields gs = .error (.assertTypeMismatch e)) : False := by
  match gs with
  | [] => simp [deserialize_fields] at h
  | (k, v) :: rest =>
    rw [deserialize_fields] at h
    revert h
    cases hv : deserialize_space (.val v) with
    | error e2 =>
      intro h
      simp only [Except.error.injEq] at h
      exact noTag_space (.val v) e (h ▸ hv)
    | ok s =>
      cases hr : deserialize_fields rest with
      | error e2 =>
        intro h
        simp only [Except.error.injEq] at h
        exact noTag_fields rest e (h ▸ hr)
      | ok l => simp
termination_by (sizeOf gs, 0)
decreasing_by
  all_goals apply Prod.Lex.left
  all_goals have hp := list_sizeOf_pos rest
  all_goals simp only [PyVal.val.sizeOf_spec, List.cons.sizeOf_spec,
    Prod.mk.sizeOf_spec]
  all_goals omega

end

end MinariSer

namespace MinariSer

/-- C1: for every well-formed descriptor of a built-in variant, including
composites nesting composites arbitrarily deep, decoding the text produced
by encoding with `to_string=True` rebuilds a descriptor equal in all
semantic fields — dtype, shape, elementwise bounds, `start`/`n`, nested
structure with key order and positional order (structural equality of the
model's `Space` covers all of these). -/
theorem claim_C1_roundtrip (s : Space) (h : Space.wf s = true) :
    deserialize_space (serialize_space s true) = .ok s :=
  roundtrip_text s h

/-- Witness for C1 at a three-level composite: a Dict holding a Tuple
holding a Discrete and a float32 Box, plus a second Discrete. -/
theorem claim_C1_roundtrip_witness :
    Space.wf (.dict [("a", .tup [.discrete 2 0,
        .box .float32 [1] (.node [.scalar 0]) (.node [.scalar 1])]),
      ("b", .discrete 7 (-3))]) = true
    ∧ deserialize_space (serialize_space (.dict [("a", .tup [.discrete 2 0,
          .box .float32 [1] (.node [.scalar 0]) (.node [.scalar 1])]),
        ("b", .discrete 7 (-3))]) true)
      = .ok (.dict [("a", .tup [.discrete 2 0,
          .box .float32 [1] (.node [.scalar 0]) (.node [.scalar 1])]),
        ("b", .discrete 7 (-3))]) :=
  ⟨by decide, claim_C1_roundtrip _ (by decide)⟩

/-- C2 (actual behavior): decoding a representation whose `"type"` tag has
no registered handler does NOT surface the fallback's Not-Supported error:
the `defaultdict` calls the one-parameter fallback as a zero-argument
`default_factory`, so the lookup raises
`TypeError: deserialize_space() missing 1 required positional argument`
before the fallback body (and its `NotImplementedError`) can run. -/
theorem claim_C2_unknown_tag :
    deserialize_space (.text (.obj [("type", .str "Frobnicate")]))
      = .error (.typeError
          "deserialize_space missing 1 required positional argument: space_dict") := by
  simp [deserialize_space, registry_call, lookupField, String.reduceEq,
    reduceIte]

/-- C3 (counterexample): decoding `{}` fails with the plain mapping lookup
failure `KeyError: type` raised by evaluating `space_dict["type"]` — i.e.
with the generic lookup error, not a dedicated Missing-Discriminator kind. -/
theorem claim_C3_counterexample :
    deserialize_space (.text (.obj [])) = .error (.keyError "type") := by
  simp [deserialize_space, registry_call, lookupField]

/-- C3 (amended): decoding any mapping lacking a `"type"` field fails with
the generic mapping key-lookup error `KeyError: type` from the dispatch
entry point; the missing discriminator is signalled, but by the generic
lookup failure, not by a dedicated error kind. -/
theorem claim_C3_missing_tag (fs : List (String × Json))
    (h : lookupField fs "type" = none) :
    deserialize_space (.text (.obj fs)) = .error (.keyError "type")
    ∧ deserialize_space (.val (.obj fs)) = .error (.keyError "type") := by
  constructor <;> simp [deserialize_space, registry_call, h]

theorem claim_C3_missing_tag_witness :
    deserialize_space (.text (.obj [("foo", .null)]))
        = .error (.keyError "type")
    ∧ deserialize_space (.val (.obj [("foo", .null)]))
        = .error (.keyError "type") :=
  claim_C3_missing_tag [("foo", .null)] rfl

end MinariSer

namespace MinariSer

/-- Modelled from gymnasium's `Discrete.contains`: a value is legal iff
`start ≤ x < start + n`. -/
def discreteLegal (n start x : ℤ) : Prop := start ≤ x ∧ x < start + n

/-- C4: encoding a Discrete with `start=-3, n=7` to text yields text that
parses to exactly `type: Discrete, dtype: int64, start: -3, n: 7` (in that
field order, with native ints and the hardcoded dtype name); decoding that
exact text yields a descriptor whose legal value set is `-3..3`. -/
theorem claim_C4_discrete_concrete :
    serialize_space (.discrete 7 (-3)) true
      = .text (.obj [("type", .str "Discrete"), ("dtype", .str "int64"),
          ("start", .num (.int (-3))), ("n", .num (.int 7))])
    ∧ deserialize_space (.text (.obj [("type", .str "Discrete"),
          ("dtype", .str "int64"), ("start", .num (.int (-3))),
          ("n", .num (.int 7))]))
        = .ok (.discrete 7 (-3))
    ∧ ∀ x : ℤ,
        discreteLegal 7 (-3) x ↔ x ∈ ({-3, -2, -1, 0, 1, 2, 3} : Set ℤ) := by
  refine ⟨?_, ?_, ?_⟩
  · simp [serialize_space, _serialize_discrete]
  · have hn : ¬ ((7 : ℤ) ≤ 0) := by omega
    have hr : (int64Range 7 && int64Range (-3)) = true := by decide
    simp [deserialize_space, registry_call, lookupField, String.reduceEq,
      reduceIte, _deserialize_discrete, discreteCtor, hn, hr]
  · intro x
    simp only [discreteLegal, Set.mem_insert_iff, Set.mem_singleton_iff]
    omega

theorem serializeFields_map (l : List (String × Space)) :
    serializeFields l
      = l.map fun p => (p.1, jsonOfPyVal (serialize_space p.2 false)) := by
  induction l with
  | nil => simp [serializeFields]
  | cons p rest ih =>
    obtain ⟨k, s⟩ := p
    simp [serializeFields, ih]

theorem serializeList_map (l : List Space) :
    serializeList l = l.map fun s => jsonOfPyVal (serialize_space s false) := by
  induction l with
  | nil => simp [serializeList]
  | cons s rest ih => simp [serializeList, ih]

/-- C5: for every Dict and Tuple descriptor the encoder recurses into each
nested descriptor with `to_string=False` — so nested values are always the
structured payload (`.val`), never a text fragment — and assembles the
results under a `"subspaces"` field: a mapping keyed by field name for Dict,
an ordered list for Tuple. -/
theorem claim_C5_composite_encoding :
    (∀ subs : List (String × Space),
      serialize_space (.dict subs) false
        = .val (.obj [("type", .str "Dict"),
            ("subspaces", .obj (serializeFields subs))])
      ∧ serializeFields subs
          = subs.map fun p => (p.1, jsonOfPyVal (serialize_space p.2 false)))
    ∧ (∀ subs : List Space,
      serialize_space (.tup subs) false
        = .val (.obj [("type", .str "Tuple"),
            ("subspaces", .arr (serializeList subs))])
      ∧ serializeList subs
          = subs.map fun s => jsonOfPyVal (serialize_space s false))
    ∧ ∀ s : Space, serialize_space s false = .val (serJson s) := by
  refine ⟨fun subs => ⟨?_, serializeFields_map subs⟩,
    fun subs => ⟨?_, serializeList_map subs⟩, serialize_space_false⟩
  · simp [serialize_space, _serialize_dict]
  · simp [serialize_space, _serialize_tuple]

end MinariSer

namespace MinariSer

/-- C6: every built-in reconstruction routine asserts that the
representation's `"type"` equals its expected tag (first four conjuncts:
a routine invoked on a representation whose tag string differs fails with
the tag assert), and whenever a routine is invoked through the decoder's
dispatch — which selects it by that same tag — the assertion holds, so the
fatal branch is unreachable (last conjunct: no decode result is ever a tag
assert failure). -/
theorem claim_C6_tag_asserts :
    (∀ (fs : List (String × Json)) (t : String),
      lookupField fs "type" = some (.str t) → t ≠ "Tuple" →
        _deserialize_tuple fs = .error (.assertTypeMismatch "Tuple"))
    ∧ (∀ (fs : List (String × Json)) (t : String),
      lookupField fs "type" = some (.str t) → t ≠ "Dict" →
        _deserialize_dict fs = .error (.assertTypeMismatch "Dict"))
    ∧ (∀ (fs : List (String × Json)) (t : String),
      lookupField fs "type" = some (.str t) → t ≠ "Box" →
        _deserialize_box fs = .error (.assertTypeMismatch "Box"))
    ∧ (∀ (fs : List (String × Json)) (t : String),
      lookupField fs "type" = some (.str t) → t ≠ "Discrete" →
        _deserialize_discrete fs = .error (.assertTypeMismatch "Discrete"))
    ∧ ∀ (p : PyVal) (e : String),
        deserialize_space p ≠ .error (.assertTypeMismatch e) := by
  refine ⟨?_, ?_, ?_, ?_, noTag_space⟩
  · intro fs t hty hne
    simp only [_deserialize_tuple, hty]
    split
    · rename_i x heq
      injection heq
    · rename_i x heq
      injection heq with h1
      injection h1 with h2
      exact absurd h2 hne
    · rfl
  · intro fs t hty hne
    simp only [_deserialize_dict, hty]
    split
    · rename_i x heq
      injection heq
    · rename_i x heq
      injection heq with h1
      injection h1 with h2
      exact absurd h2 hne
    · rfl
  · intro fs t hty hne
    simp only [_deserialize_box, hty]
    split
    · rename_i x heq
      injection heq
    · rename_i x heq
      injection heq with h1
      injection h1 with h2
      exact absurd h2 hne
    · rfl
  · intro fs t hty hne
    simp only [_deserialize_discrete, hty]
    split
    · rename_i x heq
      injection heq
    · rename_i x heq
      injection heq with h1
      injection h1 with h2
      exact absurd h2 hne
    · rfl

theorem claim_C6_tag_asserts_witness :
    _deserialize_tuple [("type", Json.str "Dict")]
        = .error (.assertTypeMismatch "Tuple")
    ∧ deserialize_space (.val .null) ≠ .error (.assertTypeMismatch "Box") :=
  ⟨claim_C6_tag_asserts.1 [("type", Json.str "Dict")] "Dict" rfl (by decide),
   claim_C6_tag_asserts.2.2.2.2 (.val .null) "Box"⟩

/-- C7: the Discrete reconstruction routine reads `n` and `start` from the
representation as-is and passes them through unchanged to the Discrete
constructor (first conjunct); with a negative `n` the decode result is
exactly the constructor's own result (second conjunct), and that result is
the constructor's positivity assertion failure (third conjunct) — so the
validation failure originates in the constructor, not in the routine. -/
theorem claim_C7_discrete_passthrough :
    (∀ (fs : List (String × Json)) (nArg startArg : Json),
      lookupField fs "type" = some (.str "Discrete") →
      lookupField fs "n" = some nArg →
      lookupField fs "start" = some startArg →
      _deserialize_discrete fs = discreteCtor nArg startArg)
    ∧ deserialize_space (.text (.obj [("type", .str "Discrete"),
        ("dtype", .str "int64"), ("start", .num (.int 0)),
        ("n", .num (.int (-5)))]))
      = discreteCtor (.num (.int (-5))) (.num (.int 0))
    ∧ discreteCtor (.num (.int (-5))) (.num (.int 0))
      = .error (.ctorAssert "n (counts) have to be positive") := by
  refine ⟨?_, ?_, ?_⟩
  · intro fs nArg startArg hty hn hstart
    simp only [_deserialize_discrete, hty, hn, hstart]
  · simp [deserialize_space, registry_call, lookupField, String.reduceEq,
      reduceIte, _deserialize_discrete]
  · have hn : ((-5 : ℤ) ≤ 0) := by omega
    simp [discreteCtor, hn]

theorem claim_C7_discrete_passthrough_witness :
    _deserialize_discrete [("type", Json.str "Discrete"),
        ("n", .num (.int (-5))), ("start", .num (.int 4))]
      = discreteCtor (.num (.int (-5))) (.num (.int 4)) :=
  claim_C7_discrete_passthrough.1 _ _ _ rfl rfl rfl

end MinariSer

namespace MinariSer

/-- C8: Box reconstruction rebuilds shape from the plain int sequence,
both bound arrays from nested sequences, and the dtype by name lookup.
For a representation whose other Box fields convert, an unresolvable dtype
name makes decode fail with the Invalid-Dtype error (first conclusion), and
a resolvable one hands the rebuilt pieces to the Box constructor (second
conclusion). -/
theorem claim_C8_box_reconstruction :
    ∀ (fs : List (String × Json)) (shapeL : List Json) (lowJ highJ : Json)
      (lo hi : Nd) (dname : String),
      lookupField fs "type" = some (.str "Box") →
      lookupField fs "shape" = some (.arr shapeL) →
      lookupField fs "low" = some lowJ → jsonToNd lowJ = some lo →
      lookupField fs "high" = some highJ → jsonToNd highJ = some hi →
      lookupField fs "dtype" = some (.str dname) →
      (npDtypeOfName dname = none →
        deserialize_space (.val (.obj fs)) = .error (.invalidDtype dname))
      ∧ ∀ d, npDtypeOfName dname = some d →
          deserialize_space (.val (.obj fs)) = boxCtor lo hi shapeL d := by
  intro fs shapeL lowJ highJ lo hi dname hty hsh hlo hlo2 hhi hhi2 hdt
  have hbody : deserialize_space (.val (.obj fs)) = _deserialize_box fs := by
    simp [deserialize_space, registry_call, hty]
  constructor
  · intro hnone
    rw [hbody]
    simp only [_deserialize_box, hty, hsh, hlo, hlo2, hhi, hhi2, hdt, hnone]
  · intro d hd
    rw [hbody]
    simp only [_deserialize_box, hty, hsh, hlo, hlo2, hhi, hhi2, hdt, hd]

theorem claim_C8_box_reconstruction_witness :
    deserialize_space (.val (.obj [("type", .str "Box"),
        ("shape", .arr [.num (.int 1)]), ("low", .arr [.num (.float 0)]),
        ("high", .arr [.num (.float 1)]), ("dtype", .str "frobnicate")]))
      = .error (.invalidDtype "frobnicate") :=
  (claim_C8_box_reconstruction
    [("type", .str "Box"), ("shape", .arr [.num (.int 1)]),
     ("low", .arr [.num (.float 0)]), ("high", .arr [.num (.float 1)]),
     ("dtype", .str "frobnicate")]
    [.num (.int 1)] (.arr [.num (.float 0)]) (.arr [.num (.float 1)])
    (.node [.scalar 0]) (.node [.scalar 1]) "frobnicate"
    rfl rfl rfl rfl rfl rfl rfl).1 rfl

/-- C9: a Continuous-box with shape `(2,)`, low `[-1.0, 0.0]`, high
`[1.0, 2.0]` and dtype float32 round-trips through encode-to-text and
decode with bound arrays exactly equal in value to the originals: the
float-to-native-number conversions lose no precision. -/
theorem claim_C9_box_fidelity :
    deserialize_space (serialize_space (.box .float32 [2]
        (.node [.scalar (-1), .scalar 0]) (.node [.scalar 1, .scalar 2])) true)
      = .ok (.box .float32 [2] (.node [.scalar (-1), .scalar 0])
          (.node [.scalar 1, .scalar 2])) :=
  roundtrip_text _ (by decide)

/-- C10 (implicit): any text whose parse result is not a mapping — a JSON
array, a bare number, a string, a boolean, null — is rejected by the
decoder entry point's `assert isinstance(space_dict, Dict)` with an
AssertionError, before any dispatch on a tag occurs; no dedicated error
kind of the taxonomy is involved. -/
theorem claim_C10_nonmapping_text (j : Json) (h : ∀ fs, j ≠ .obj fs) :
    deserialize_space (.text j) = .error .assertNotDict := by
  cases j with
  | obj fs => exact absurd rfl (h fs)
  | null => simp [deserialize_space]
  | bool b => simp [deserialize_space]
  | num n => simp [deserialize_space]
  | str s => simp [deserialize_space]
  | arr xs => simp [deserialize_space]

theorem claim_C10_nonmapping_text_witness :
    deserialize_space (.text (.arr [])) = .error .assertNotDict
    ∧ deserialize_space (.text (.num (.int 5))) = .error .assertNotDict :=
  ⟨claim_C10_nonmapping_text _ (fun fs h => nomatch h),
   claim_C10_nonmapping_text _ (fun fs h => nomatch h)⟩

end MinariSer
